import Mathlib

/-!
Verification of the generation-session protocol and client-side state
machine of the MGX clone front end (`frontend/app/page.tsx` and
`frontend/components/ChatArea.tsx`), embedded shallowly in Lean.

Modelling conventions:
* React `useState`/`useRef` cells become fields of `HomeState`; each event
  handler is a pure function `HomeState → HomeState` (dispatchers also
  return the list of outbound commands they send on the socket).
* JavaScript optional fields become `Option`; JS truthiness of a possibly
  absent string is `strTruthy`, of a possibly absent number `numTruthy`.
* `wsRef.current && wsRef.current.readyState === WebSocket.OPEN` is a
  boolean parameter `wsOpen` of each dispatcher.
* `JSON.parse` in `ws.onmessage` has no surrounding try/catch, so the
  message path is `Except Unit HomeState`: `Except.error` means the
  handler throws out of the callback.
* Asynchronous fetches (`fetchProjects`, `loadProjectDetails`) are
  external collaborators; only the synchronous state transition of each
  handler is modelled.
-/

namespace MGX

/-- `ProgressInfo` from `lib/types.ts` (camelCase client shape). -/
structure ProgressInfo where
  current : Int
  total : Int
  percentage : Int
  currentAgent : Option String
  currentTask : Option String
  deriving Repr, DecidableEq

/-- `AgentState` from `lib/types.ts`. -/
structure AgentState where
  name : String
  state : String
  description : String
  deriving Repr, DecidableEq

/-- `PendingQuestion` from `lib/types.ts`. -/
structure PendingQuestion where
  questionId : String
  projectId : Option String
  agent : String
  content : String
  questionType : String
  options : Option (List String)
  deriving Repr, DecidableEq

/-- `Project` from `lib/types.ts`, restricted to the fields the session
state machine reads (`id`, `status`, `requirement`). -/
structure Project where
  id : String
  name : String
  requirement : String
  status : String
  deriving Repr, DecidableEq

/-- A client-side `Message` from `lib/types.ts`.  The JS `id` is a string
built from a monotonically increased counter plus clock/randomness; only
the counter is modelled.  The wall-clock `timestamp` is omitted. -/
structure Message where
  id : Nat := 0
  type : String
  agent : String := "System"
  content : String := ""
  projectId : Option String := none
  conversationRound : Option Nat := none
  canRetry : Option Bool := none
  questionId : Option String := none
  questionType : Option String := none
  options : Option (List String) := none
  skipped : Bool := false
  deriving Repr, DecidableEq

/-- The progress payload carried by `progress`/`task_update` events
(server snake_case shape). -/
structure ProgressPayload where
  current : Int
  total : Int
  percentage : Int
  current_agent : Option String := none
  deriving Repr, DecidableEq

/-- An inbound WebSocket event as the loosely typed `data` object read by
`handleWebSocketMessage`; absent JSON fields are `none` / `""`. -/
structure WsData where
  type : String
  project_id : Option String := none
  conversation_round : Option Nat := none
  status : Option String := none
  content : String := ""
  agent : String := ""
  can_retry : Option Bool := none
  question_id : String := ""
  question_type : String := ""
  options : Option (List String) := none
  progress : Option ProgressPayload := none
  agent_states : Option (List AgentState) := none
  current_assignee : String := ""
  instruction : Option String := none
  deriving Repr, DecidableEq

/-- Outbound WebSocket commands (`wsRef.current.send(JSON.stringify ...)`). -/
inductive Command where
  | create_project (name requirement : String)
  | continue_conversation (project_id message : String)
  | regenerate_project (project_id : String)
  | retry_project (project_id : String)
  | user_response (question_id : String) (project_id : Option String) (response : String)
  | skip_question (question_id : String)
  | create_from_template (template_id name : String) (features : List String)
      (custom_requirements : String)
  deriving Repr, DecidableEq

/-- The React state cells of `Home` in `app/page.tsx` that the session
state machine touches, plus the message-id counter ref. -/
structure HomeState where
  messages : List Message := []
  isGenerating : Bool := false
  activeProjectId : Option String := none
  progressInfo : Option ProgressInfo := none
  agentStates : List AgentState := []
  failedProjectId : Option String := none
  pendingQuestion : Option PendingQuestion := none
  showClarificationDialog : Bool := false
  currentProject : Option Project := none
  msgCounter : Nat := 0
  deriving Repr, DecidableEq

/-- JS truthiness of a possibly absent string (`undefined` and `""` are
falsy). -/
def strTruthy : Option String → Bool
  | none => false
  | some s => s ≠ ""

/-- JS truthiness of a possibly absent number (`undefined` and `0` are
falsy). -/
def numTruthy : Option Nat → Bool
  | none => false
  | some n => n ≠ 0

/-- JS falsiness of `content.trim()`: the trimmed string is empty exactly
when every character of `content` is whitespace.  Stated via `List.all`
(rather than `String.trim`, which is defined by well-founded recursion)
so that it evaluates on concrete inputs. -/
def jsTrimEmpty (content : String) : Bool := content.data.all Char.isWhitespace

/-- JS `a || b` on strings (`""` falls through to the default). -/
def jsOr (a b : String) : String := if a = "" then b else a

/-- JS `a || b` where `a` is a string and `b` possibly absent. -/
def jsOrOpt (a : String) (b : Option String) : Option String :=
  if a = "" then b else some a

/-- The generic chat `Message` built near the top of
`handleWebSocketMessage` for non-early-return events (`newMessage`). -/
def mkEventMessage (data : WsData) (idv : Nat) : Message :=
  { id := idv
    type := data.type
    agent := jsOr data.agent "System"
    content := data.content
    projectId := data.project_id
    conversationRound := data.conversation_round
    canRetry := data.can_retry }

/-- `handleWebSocketMessage` from `app/page.tsx` (lines 116–283): routes
one decoded inbound event to the state transition it performs.
`fetchProjects` / `loadProjectDetails` calls are asynchronous external
fetches and have no synchronous state effect. -/
def handleWebSocketMessage (data : WsData) (s : HomeState) : HomeState :=
  if data.type = "progress" then
    let s := match data.progress with
      | some p =>
          let info : ProgressInfo :=
            { current := p.current, total := p.total, percentage := p.percentage,
              currentAgent := p.current_agent, currentTask := none }
          { s with progressInfo := some info }
      | none => s
    match data.agent_states with
    | some l => { s with agentStates := l }
    | none => s
  else if data.type = "agent_status" then
    match data.agent_states with
    | some l => { s with agentStates := l }
    | none => s
  else if data.type = "task_update" then
    let s := match data.progress with
      | some p =>
          let info : ProgressInfo :=
            { current := p.current, total := p.total, percentage := p.percentage,
              currentAgent := jsOrOpt data.current_assignee p.current_agent,
              currentTask := data.instruction }
          { s with progressInfo := some info }
      | none => s
    match data.agent_states with
    | some l => { s with agentStates := l }
    | none => s
  else if data.type = "clarification" then
    let question : PendingQuestion :=
      { questionId := data.question_id
        projectId := data.project_id
        agent := jsOr data.agent "System"
        content := data.content
        questionType := jsOr data.question_type "inline"
        options := data.options }
    let clarificationMessage : Message :=
      { id := s.msgCounter + 1
        type := "clarification"
        agent := jsOr data.agent "System"
        content := data.content
        projectId := data.project_id
        questionId := some data.question_id
        questionType := some (jsOr data.question_type "inline")
        options := data.options }
    { s with
        pendingQuestion := some question
        showClarificationDialog :=
          if data.question_type = "modal" then true else s.showClarificationDialog
        messages := s.messages ++ [clarificationMessage]
        msgCounter := s.msgCounter + 1 }
  else if data.type = "response_received" then
    { s with pendingQuestion := none, showClarificationDialog := false }
  else if data.type = "question_timeout" then
    let timeoutMessage : Message :=
      { id := s.msgCounter + 1
        type := "status"
        agent := "System"
        content := jsOr data.content "Question timed out, using default behavior"
        projectId := data.project_id }
    { s with
        pendingQuestion := none
        showClarificationDialog := false
        messages := s.messages ++ [timeoutMessage]
        msgCounter := s.msgCounter + 1 }
  else
    let newMessage := mkEventMessage data (s.msgCounter + 1)
    let s := { s with msgCounter := s.msgCounter + 1 }
    if data.type = "status" ∧ strTruthy data.project_id ∧ data.status = some "created" then
      { s with
          activeProjectId := data.project_id
          messages :=
            let userMessages := s.messages.filter (fun m => m.type = "user")
            match userMessages.getLast? with
            | some lastUserMessage => [lastUserMessage, newMessage]
            | none => [newMessage] }
    else if data.type = "status" ∧ (data.status = some "continuing" ∨
        data.status = some "regenerating" ∨ data.status = some "retrying") then
      { s with
          activeProjectId := data.project_id
          messages := s.messages ++ [newMessage] }
    else if data.type = "agent_message" ∨ data.type = "status" ∨
        data.type = "reply_to_human" then
      if ¬ strTruthy data.project_id ∨ data.project_id = s.activeProjectId then
        { s with messages := s.messages ++ [newMessage] }
      else s
    else if data.type = "complete" then
      { s with
          messages := s.messages ++ [newMessage]
          isGenerating := false
          progressInfo := none
          agentStates := []
          failedProjectId := none
          pendingQuestion := none }
    else if data.type = "error" then
      let s := { s with
          messages := s.messages ++ [newMessage]
          isGenerating := false
          progressInfo := none
          pendingQuestion := none }
      if data.can_retry = some true ∧ strTruthy data.project_id then
        { s with failedProjectId := data.project_id }
      else s
    else s

/-- The `ws.onmessage` callback (lines 84–89): `JSON.parse(event.data)`
followed by `handleWebSocketMessage`.  There is no try/catch, so a raw
payload that fails to parse (`none`) makes the callback throw. -/
def onMessage (parsed : Option WsData) (s : HomeState) : Except Unit HomeState :=
  match parsed with
  | none => Except.error ()
  | some data => Except.ok (handleWebSocketMessage data s)

/-- `handleClarificationResponse` (lines 541–574): if the socket is not
open, log and return; otherwise append a `user_response` Message, send the
`user_response` command, and clear the pending question optimistically. -/
def handleClarificationResponse (questionId response : String) (wsOpen : Bool)
    (s : HomeState) : HomeState × List Command :=
  if ¬ wsOpen then (s, [])
  else
    let responseMessage : Message :=
      { id := s.msgCounter + 1
        type := "user_response"
        agent := "User"
        content := response
        projectId := (s.pendingQuestion.map PendingQuestion.projectId).join
        questionId := some questionId }
    ({ s with
        messages := s.messages ++ [responseMessage]
        msgCounter := s.msgCounter + 1
        pendingQuestion := none
        showClarificationDialog := false },
     [Command.user_response questionId
        (s.pendingQuestion.map PendingQuestion.projectId).join response])

/-- `handleSendMessage` (lines 392–443): empty text is ignored; a pending
question routes the text to `handleClarificationResponse`; otherwise (when
no run is in flight) the user Message is appended and, if the socket is
open, either `continue_conversation` (current project completed) or
`create_project` (name truncated past 30 characters) is dispatched. -/
def handleSendMessage (content : String) (wsOpen : Bool) (s : HomeState) :
    HomeState × List Command :=
  if jsTrimEmpty content then (s, [])
  else match s.pendingQuestion with
  | some pq => handleClarificationResponse pq.questionId content wsOpen s
  | none =>
    if s.isGenerating then (s, [])
    else
      let userMessage : Message :=
        { id := s.msgCounter + 1
          type := "user"
          agent := "User"
          content := content
          projectId := s.currentProject.map Project.id }
      let s := { s with
          messages := s.messages ++ [userMessage]
          msgCounter := s.msgCounter + 1 }
      if wsOpen then
        match s.currentProject with
        | some p =>
          if p.status = "completed" then
            ({ s with isGenerating := true },
             [Command.continue_conversation p.id content])
          else
            let projectName :=
              if content.length > 30 then content.take 30 ++ "..." else content
            ({ s with isGenerating := true },
             [Command.create_project projectName content])
        | none =>
          let projectName :=
            if content.length > 30 then content.take 30 ++ "..." else content
          ({ s with isGenerating := true },
           [Command.create_project projectName content])
      else (s, [])

/-- `handleRegenerateProject` (lines 445–470): requires a current project
and no run in flight; appends the local regenerate Message, and if the
socket is open resets roster/progress and dispatches `regenerate_project`. -/
def handleRegenerateProject (wsOpen : Bool) (s : HomeState) :
    HomeState × List Command :=
  match s.currentProject with
  | none => (s, [])
  | some p =>
    if s.isGenerating then (s, [])
    else
      let regenMessage : Message :=
        { id := s.msgCounter + 1
          type := "user"
          agent := "User"
          content := "🔄 Regenerate project"
          projectId := some p.id }
      let s := { s with
          messages := s.messages ++ [regenMessage]
          msgCounter := s.msgCounter + 1 }
      if wsOpen then
        ({ s with isGenerating := true, agentStates := [], progressInfo := none },
         [Command.regenerate_project p.id])
      else (s, [])

/-- `handleRetryProject` (lines 472–498): requires no run in flight;
appends the local retry Message, and if the socket is open optimistically
clears FailedProjectId, resets roster/progress and dispatches
`retry_project`. -/
def handleRetryProject (projectId : String) (wsOpen : Bool) (s : HomeState) :
    HomeState × List Command :=
  if s.isGenerating then (s, [])
  else
    let retryMessage : Message :=
      { id := s.msgCounter + 1
        type := "user"
        agent := "User"
        content := "🔄 Retry project generation"
        projectId := some projectId }
    let s := { s with
        messages := s.messages ++ [retryMessage]
        msgCounter := s.msgCounter + 1 }
    if wsOpen then
      let s2 := { s with isGenerating := true, failedProjectId := none,
                         agentStates := ([] : List AgentState), progressInfo := none }
      (s2, [Command.retry_project projectId])
    else (s, [])

/-- `showRoundSeparator` from `components/ChatArea.tsx` (lines 125–131):
a separator is rendered before `message` when a previous message exists,
both `conversationRound`s are truthy, and the round strictly increased. -/
def showRoundSeparator (message : Message) (prevMessage : Option Message) : Bool :=
  match prevMessage with
  | none => false
  | some prev =>
    numTruthy message.conversationRound && numTruthy prev.conversationRound &&
      decide (prev.conversationRound.getD 0 < message.conversationRound.getD 0)

/-- The per-index separator flags `ChatArea` computes while mapping over
the timeline (index 0 has no previous message). -/
def separatorFlagsFrom (prev : Message) : List Message → List Bool
  | [] => []
  | m :: rest => showRoundSeparator m (some prev) :: separatorFlagsFrom m rest

/-- Separator flags for a whole timeline, one Bool per message. -/
def separatorFlags : List Message → List Bool
  | [] => []
  | m :: rest => showRoundSeparator m none :: separatorFlagsFrom m rest

/-! ## Concrete sample events and states used as witnesses -/

/-- A sample agent-roster entry. -/
def engineerAgent : AgentState :=
  { name := "Engineer", state := "active", description := "writing code" }

/-- A sample busy session state: stale messages from project `p0`, a live
progress bar, a roster, a failed project and a pending question. -/
def busyState : HomeState :=
  { messages := [{ id := 1, type := "user", agent := "User", content := "old requirement" },
                 { id := 2, type := "agent_message", content := "working" },
                 { id := 3, type := "user", agent := "User", content := "build a todo app" }]
    isGenerating := true
    activeProjectId := some "p0"
    progressInfo := some { current := 1, total := 5, percentage := 20,
                           currentAgent := some "Engineer", currentTask := none }
    agentStates := [engineerAgent]
    failedProjectId := some "pX"
    pendingQuestion := some { questionId := "q9", projectId := some "p0",
                              agent := "ProductManager", content := "which db?",
                              questionType := "inline", options := none }
    showClarificationDialog := false
    currentProject := some { id := "p0", name := "old", requirement := "old requirement",
                             status := "running" }
    msgCounter := 3 }

/-- C1 witness event: `status(created)` for project `p1`. -/
def c1Event : WsData :=
  { type := "status", status := some "created", project_id := some "p1",
    content := "Project created" }

/-- C1 witness state. -/
def c1State : HomeState := busyState

/-- C4 witness event: a `complete` event for project `p0`. -/
def c4Event : WsData :=
  { type := "complete", project_id := some "p0", content := "done" }

/-- C4 witness state. -/
def c4State : HomeState := busyState

/-- C3 witness event: an `agent_message` for a background project `p9`. -/
def c3Event : WsData :=
  { type := "agent_message", project_id := some "p9", content := "background chatter" }

/-- C3 witness state. -/
def c3State : HomeState := busyState

/-- C6 counterexample event: a retryable `error` for project `p1`. -/
def c6Event : WsData :=
  { type := "error", project_id := some "p1", content := "generation failed",
    can_retry := some true }

/-- C6 counterexample state: the roster is non-empty when the error
arrives. -/
def c6State : HomeState := busyState

/-- C6 amended-claim witness event: a non-retryable `error`. -/
def c6bEvent : WsData :=
  { type := "error", content := "fatal failure", can_retry := some false }

/-- C6 amended-claim witness state. -/
def c6bState : HomeState := busyState

/-- C8 witness event: `error` with `can_retry` for project `p1`. -/
def c8Event : WsData :=
  { type := "error", project_id := some "p1", content := "generation failed",
    can_retry := some true }

/-- C8 witness state. -/
def c8State : HomeState := busyState

/-- C2 witness state: fresh session (no pending question, idle, no
current project). -/
def c2State : HomeState := {}

/-- C7 witness event: an inline clarification question `q1`. -/
def c7Event : WsData :=
  { type := "clarification", question_id := "q1", project_id := some "p0",
    agent := "Architect", content := "React or Vue?", question_type := "inline" }

/-- C7 witness acknowledgment event. -/
def c7Ack : WsData := { type := "response_received" }

/-- A minimal timeline message carrying only a conversation round, used to
exercise the round-separator rule. -/
def roundMsg (r : Nat) : Message :=
  { type := "agent_message", agent := "Engineer", conversationRound := some r }

/-- C10 witness state: idle session displaying a completed project. -/
def c10State : HomeState :=
  { currentProject := some { id := "p7", name := "todo", requirement := "a todo app",
                             status := "completed" }
    msgCounter := 10 }

/-! ## Theorems about the claims -/

/-- C1: an inbound `status` event with status `created` that carries a
(non-empty) project id sets ActiveProjectId to that id and resets the
timeline to exactly the most recent user message (when one exists,
otherwise nothing) followed by the new status message; every other prior
message is purged. -/
theorem status_created_resets_timeline (data : WsData) (s : HomeState)
    (hT : data.type = "status") (hS : data.status = some "created")
    (hP : strTruthy data.project_id = true) :
    (handleWebSocketMessage data s).activeProjectId = data.project_id ∧
    (handleWebSocketMessage data s).messages =
      ((s.messages.filter (fun m => m.type = "user")).getLast?).toList
        ++ [mkEventMessage data (s.msgCounter + 1)] := by
  simp only [handleWebSocketMessage, hT, hS, hP]
  norm_num
  cases h : List.find? (fun m => decide (m.type = "user")) s.messages.reverse <;>
    simp [h]

/-- Witness for C1 at a concrete event and state. -/
theorem status_created_resets_timeline_witness :
    (handleWebSocketMessage c1Event c1State).activeProjectId = c1Event.project_id ∧
    (handleWebSocketMessage c1Event c1State).messages =
      ((c1State.messages.filter (fun m => m.type = "user")).getLast?).toList
        ++ [mkEventMessage c1Event (c1State.msgCounter + 1)] :=
  status_created_resets_timeline c1Event c1State rfl rfl rfl

/-- C4: a `complete` event appends the completion message, clears
progress, roster, pending question and failed-project marker, stops
generation and leaves ActiveProjectId unchanged. -/
theorem complete_clears_transient_state (data : WsData) (s : HomeState)
    (hT : data.type = "complete") :
    (handleWebSocketMessage data s).messages =
        s.messages ++ [mkEventMessage data (s.msgCounter + 1)] ∧
    (handleWebSocketMessage data s).progressInfo = none ∧
    (handleWebSocketMessage data s).agentStates = [] ∧
    (handleWebSocketMessage data s).pendingQuestion = none ∧
    (handleWebSocketMessage data s).failedProjectId = none ∧
    (handleWebSocketMessage data s).isGenerating = false ∧
    (handleWebSocketMessage data s).activeProjectId = s.activeProjectId := by
  simp [handleWebSocketMessage, hT]

/-- Witness for C4 at a concrete event and state. -/
theorem complete_clears_transient_state_witness :
    (handleWebSocketMessage c4Event c4State).messages =
        c4State.messages ++ [mkEventMessage c4Event (c4State.msgCounter + 1)] ∧
    (handleWebSocketMessage c4Event c4State).progressInfo = none ∧
    (handleWebSocketMessage c4Event c4State).agentStates = [] ∧
    (handleWebSocketMessage c4Event c4State).pendingQuestion = none ∧
    (handleWebSocketMessage c4Event c4State).failedProjectId = none ∧
    (handleWebSocketMessage c4Event c4State).isGenerating = false ∧
    (handleWebSocketMessage c4Event c4State).activeProjectId = c4State.activeProjectId :=
  complete_clears_transient_state c4Event c4State rfl

/-- C5 (code bug): `ws.onmessage` runs `JSON.parse` with no try/catch, so
an unparseable raw payload makes the message path throw instead of being
logged and dropped with the session state unchanged. -/
theorem unparseable_event_throws (s : HomeState) :
    onMessage none s = Except.error () := rfl

/-- C3: an `agent_message`, `reply_to_human`, or `status` event whose
status sub-value is none of created/continuing/regenerating/retrying and
which carries a project id different from ActiveProjectId leaves the
timeline unchanged; with an absent/empty or matching project id the
message is appended. -/
theorem foreign_project_events_ignored (data : WsData) (s : HomeState)
    (hK : data.type = "agent_message" ∨ data.type = "reply_to_human" ∨
      (data.type = "status" ∧
        ¬ data.status = some "created" ∧ ¬ data.status = some "continuing" ∧
        ¬ data.status = some "regenerating" ∧ ¬ data.status = some "retrying")) :
    (strTruthy data.project_id = true → ¬ data.project_id = s.activeProjectId →
      (handleWebSocketMessage data s).messages = s.messages) ∧
    ((strTruthy data.project_id = false ∨ data.project_id = s.activeProjectId) →
      (handleWebSocketMessage data s).messages =
        s.messages ++ [mkEventMessage data (s.msgCounter + 1)]) := by
  constructor
  · intro hp hne
    rcases hK with hT | hT | ⟨hT, h1, h2, h3, h4⟩
    · simp [handleWebSocketMessage, hT, hp, hne]
    · simp [handleWebSocketMessage, hT, hp, hne]
    · simp [handleWebSocketMessage, hT, h1, h2, h3, h4, hp, hne]
  · intro hp
    rcases hK with hT | hT | ⟨hT, h1, h2, h3, h4⟩ <;> rcases hp with hp | hp
    · simp [handleWebSocketMessage, hT, hp]
    · simp [handleWebSocketMessage, hT, hp]
    · simp [handleWebSocketMessage, hT, hp]
    · simp [handleWebSocketMessage, hT, hp]
    · simp [handleWebSocketMessage, hT, h1, h2, h3, h4, hp]
    · simp [handleWebSocketMessage, hT, h1, h2, h3, h4, hp]

/-- Witness for C3 at a concrete event and state (foreign project id:
timeline untouched). -/
theorem foreign_project_events_ignored_witness :
    (handleWebSocketMessage c3Event c3State).messages = c3State.messages :=
  (foreign_project_events_ignored c3Event c3State (Or.inl rfl)).1 rfl (by decide)

/-- C6 counterexample: a retryable `error` event arriving while the roster
is non-empty leaves the roster untouched — the code's error branch never
clears `agentStates`, so the claim that the AgentRoster set is cleared on
error is false. -/
theorem error_does_not_clear_roster :
    (handleWebSocketMessage c6Event c6State).agentStates = [engineerAgent] ∧
    ¬ (handleWebSocketMessage c6Event c6State).agentStates = [] := by
  decide

/-- C6 (amended): an `error` event appends the error message, clears
ProgressSnapshot and PendingQuestion, stops generation, leaves the
AgentRoster unchanged (it is not cleared), and leaves ActiveProjectId
unchanged. -/
theorem error_event_effects (data : WsData) (s : HomeState)
    (hT : data.type = "error") :
    (handleWebSocketMessage data s).messages =
        s.messages ++ [mkEventMessage data (s.msgCounter + 1)] ∧
    (handleWebSocketMessage data s).progressInfo = none ∧
    (handleWebSocketMessage data s).pendingQuestion = none ∧
    (handleWebSocketMessage data s).isGenerating = false ∧
    (handleWebSocketMessage data s).agentStates = s.agentStates ∧
    (handleWebSocketMessage data s).activeProjectId = s.activeProjectId := by
  simp only [handleWebSocketMessage, hT]
  norm_num
  by_cases hc : data.can_retry = some true ∧ strTruthy data.project_id <;>
    simp [hc]

/-- Witness for C6's amended claim at a concrete event and state. -/
theorem error_event_effects_witness :
    (handleWebSocketMessage c6bEvent c6bState).messages =
        c6bState.messages ++ [mkEventMessage c6bEvent (c6bState.msgCounter + 1)] ∧
    (handleWebSocketMessage c6bEvent c6bState).progressInfo = none ∧
    (handleWebSocketMessage c6bEvent c6bState).pendingQuestion = none ∧
    (handleWebSocketMessage c6bEvent c6bState).isGenerating = false ∧
    (handleWebSocketMessage c6bEvent c6bState).agentStates = c6bState.agentStates ∧
    (handleWebSocketMessage c6bEvent c6bState).activeProjectId = c6bState.activeProjectId :=
  error_event_effects c6bEvent c6bState rfl

/-- C8: a retryable `error` carrying project id `pid` records it in
FailedProjectId and ends the run; dispatching a retry then clears
FailedProjectId immediately (before any server acknowledgment), resets
roster and progress, and issues exactly `retry_project pid`. -/
theorem error_then_retry (data : WsData) (s : HomeState) (pid : String)
    (hT : data.type = "error") (hR : data.can_retry = some true)
    (hP : data.project_id = some pid) (hne : ¬ pid = "") :
    (handleWebSocketMessage data s).failedProjectId = some pid ∧
    (handleWebSocketMessage data s).isGenerating = false ∧
    (handleRetryProject pid true (handleWebSocketMessage data s)).1.failedProjectId
        = none ∧
    (handleRetryProject pid true (handleWebSocketMessage data s)).1.agentStates = [] ∧
    (handleRetryProject pid true (handleWebSocketMessage data s)).1.progressInfo
        = none ∧
    (handleRetryProject pid true (handleWebSocketMessage data s)).2
        = [Command.retry_project pid] := by
  simp [handleWebSocketMessage, handleRetryProject, hT, hR, hP, strTruthy, hne]

/-- C2: on non-empty text, `handleSendMessage` (with the channel open)
answers a pending question with a `user_response` command; otherwise, when
idle, it continues a completed current project with the full text, and in
every other case creates a project whose requirement is the full text and
whose name is the text (≤ 30 characters) or its first 30 characters plus
an ellipsis. -/
theorem send_message_dispatch (content : String) (s : HomeState)
    (h : jsTrimEmpty content = false) :
    (∀ pq, s.pendingQuestion = some pq →
      (handleSendMessage content true s).2 =
        [Command.user_response pq.questionId pq.projectId content]) ∧
    (s.pendingQuestion = none → s.isGenerating = false →
      ∀ p, s.currentProject = some p → p.status = "completed" →
      (handleSendMessage content true s).2 =
        [Command.continue_conversation p.id content]) ∧
    (s.pendingQuestion = none → s.isGenerating = false →
      (∀ p, s.currentProject = some p → ¬ p.status = "completed") →
      (handleSendMessage content true s).2 =
        [Command.create_project
          (if content.length ≤ 30 then content else content.take 30 ++ "...")
          content]) := by
  refine ⟨?_, ?_, ?_⟩
  · intro pq hpq
    simp [handleSendMessage, handleClarificationResponse, h, hpq]
  · intro hpq hg p hp hst
    simp [handleSendMessage, h, hpq, hg, hp, hst]
  · intro hpq hg hnc
    have hname : (if 30 < content.length then content.take 30 ++ "..." else content)
        = if content.length ≤ 30 then content else content.take 30 ++ "..." := by
      rcases Nat.lt_or_ge 30 content.length with hl | hl
      · simp [hl, Nat.not_le.mpr hl]
      · simp [Nat.not_lt.mpr hl, hl]
    cases hc : s.currentProject with
    | none => simp [handleSendMessage, h, hpq, hg, hc, hname]
    | some p => simp [handleSendMessage, h, hpq, hg, hc, hnc p hc, hname]

/-- Witness for C2: "Build a todo app" (16 characters, fresh session)
yields `create_project` with the untruncated text as both name and
requirement. -/
theorem send_message_dispatch_witness :
    (handleSendMessage "Build a todo app" true c2State).2 =
      [Command.create_project "Build a todo app" "Build a todo app"] := by
  have hc := (send_message_dispatch "Build a todo app" c2State (by decide)).2.2
    rfl rfl (fun p hp => by simp [c2State] at hp)
  simpa using hc

/-- C7: a clarification event followed by a user-submitted response and
the server's `response_received` acknowledgment ends with no pending
question, exactly one new `user_response` message on the timeline, and an
outbound `user_response` command carrying the question's id. -/
theorem clarification_roundtrip (s0 : HomeState) (d rr : WsData) (text : String)
    (hd : d.type = "clarification") (hrr : rr.type = "response_received")
    (htext : jsTrimEmpty text = false) :
    (handleWebSocketMessage rr
        (handleSendMessage text true (handleWebSocketMessage d s0)).1).pendingQuestion
      = none ∧
    ((handleWebSocketMessage rr
        (handleSendMessage text true (handleWebSocketMessage d s0)).1).messages.filter
          (fun m => m.type = "user_response")).length =
      (s0.messages.filter (fun m => m.type = "user_response")).length + 1 ∧
    (handleSendMessage text true (handleWebSocketMessage d s0)).2 =
      [Command.user_response d.question_id d.project_id text] := by
  refine ⟨?_, ?_, ?_⟩ <;>
    simp [handleWebSocketMessage, handleSendMessage, handleClarificationResponse,
      hd, hrr, htext]

/-- Witness for C7 at a concrete clarification exchange. -/
theorem clarification_roundtrip_witness :
    (handleWebSocketMessage c7Ack
        (handleSendMessage "React" true (handleWebSocketMessage c7Event busyState)).1).pendingQuestion
      = none ∧
    ((handleWebSocketMessage c7Ack
        (handleSendMessage "React" true (handleWebSocketMessage c7Event busyState)).1).messages.filter
          (fun m => m.type = "user_response")).length =
      (busyState.messages.filter (fun m => m.type = "user_response")).length + 1 ∧
    (handleSendMessage "React" true (handleWebSocketMessage c7Event busyState)).2 =
      [Command.user_response c7Event.question_id c7Event.project_id "React"] :=
  clarification_roundtrip busyState c7Event c7Ack "React" rfl rfl (by decide)

/-- C9 counterexample: on the timeline with rounds `[1,1,2,2,2,1]` the
code shows no separator at index 5 and produces exactly the same
separator output as the non-decreasing timeline `[1,1,2,2,2,2]` — the
decreasing round is silently tolerated, not flagged as an anomaly. -/
theorem decreasing_round_not_flagged :
    separatorFlags ([1, 1, 2, 2, 2, 1].map roundMsg)
      = [false, false, true, false, false, false] ∧
    separatorFlags ([1, 1, 2, 2, 2, 2].map roundMsg)
      = [false, false, true, false, false, false] := by
  decide

/-- C9 (amended): a separator is rendered before a message exactly when a
previous message exists, both conversation rounds are defined (and, per
the data-model invariant, positive) and the round strictly increased; the
timeline with rounds `[1,1,2,2,2,1]` shows no separator at index 5 and is
rendered identically to its non-decreasing variant — no anomaly signal
exists. -/
theorem round_separator_rule (m prev : Message) :
    showRoundSeparator m none = false ∧
    ((∀ r, m.conversationRound = some r → 0 < r) →
     (∀ r, prev.conversationRound = some r → 0 < r) →
     (showRoundSeparator m (some prev) = true ↔
       ∃ a b, m.conversationRound = some a ∧ prev.conversationRound = some b ∧
         b < a)) ∧
    separatorFlags ([1, 1, 2, 2, 2, 1].map roundMsg)
      = separatorFlags ([1, 1, 2, 2, 2, 2].map roundMsg) := by
  refine ⟨rfl, ?_, by decide⟩
  intro hm hp
  cases hmr : m.conversationRound with
  | none => simp [showRoundSeparator, numTruthy, hmr]
  | some a =>
    cases hpr : prev.conversationRound with
    | none => simp [showRoundSeparator, numTruthy, hmr, hpr]
    | some b =>
      have ha : a ≠ 0 := Nat.pos_iff_ne_zero.mp (hm a hmr)
      have hb : b ≠ 0 := Nat.pos_iff_ne_zero.mp (hp b hpr)
      simp [showRoundSeparator, numTruthy, hmr, hpr, ha, hb]

/-- Witness for C9's amended claim: rounds 1 → 2 render a separator. -/
theorem round_separator_rule_witness :
    showRoundSeparator (roundMsg 2) (some (roundMsg 1)) = true :=
  ((round_separator_rule (roundMsg 2) (roundMsg 1)).2.1
    (fun r hr => by simp [roundMsg] at hr; omega)
    (fun r hr => by simp [roundMsg] at hr; omega)).mpr
    ⟨2, 1, rfl, rfl, by omega⟩

/-- C10: with the channel closed, non-empty text, no pending question and
no run in flight, `handleSendMessage` still appends the local user message
but dispatches nothing and leaves the generating flag false; the same
append-without-send happens for a regenerate request. -/
theorem closed_channel_appends_without_send (content : String) (s : HomeState)
    (h : jsTrimEmpty content = false) (hpq : s.pendingQuestion = none)
    (hg : s.isGenerating = false) :
    (handleSendMessage content false s).1.messages = s.messages ++
      [{ id := s.msgCounter + 1, type := "user", agent := "User", content := content,
         projectId := s.currentProject.map Project.id }] ∧
    (handleSendMessage content false s).2 = [] ∧
    (handleSendMessage content false s).1.isGenerating = false ∧
    (∀ p, s.currentProject = some p →
      (handleRegenerateProject false s).1.messages = s.messages ++
        [{ id := s.msgCounter + 1, type := "user", agent := "User",
           content := "🔄 Regenerate project", projectId := some p.id }] ∧
      (handleRegenerateProject false s).2 = [] ∧
      (handleRegenerateProject false s).1.isGenerating = false) := by
  refine ⟨?_, ?_, ?_, ?_⟩
  · simp [handleSendMessage, h, hpq, hg]
  · simp [handleSendMessage, h, hpq, hg]
  · simp [handleSendMessage, h, hpq, hg]
  · intro p hp
    refine ⟨?_, ?_, ?_⟩ <;> simp [handleRegenerateProject, hp, hg]

/-- Witness for C10 at a concrete text and state. -/
theorem closed_channel_appends_without_send_witness :
    (handleSendMessage "hello" false c10State).1.messages = c10State.messages ++
      [{ id := c10State.msgCounter + 1, type := "user", agent := "User",
         content := "hello", projectId := c10State.currentProject.map Project.id }] ∧
    (handleSendMessage "hello" false c10State).2 = [] ∧
    (handleSendMessage "hello" false c10State).1.isGenerating = false ∧
    ((handleRegenerateProject false c10State).1.messages = c10State.messages ++
      [{ id := c10State.msgCounter + 1, type := "user", agent := "User",
         content := "🔄 Regenerate project", projectId := some "p7" }] ∧
     (handleRegenerateProject false c10State).2 = [] ∧
     (handleRegenerateProject false c10State).1.isGenerating = false) := by
  have hw := closed_channel_appends_without_send "hello" c10State (by decide) rfl rfl
  exact ⟨hw.1, hw.2.1, hw.2.2.1, hw.2.2.2 _ rfl⟩

/-- Witness for C8 at a concrete error event and state. -/
theorem error_then_retry_witness :
    (handleWebSocketMessage c8Event c8State).failedProjectId = some "p1" ∧
    (handleWebSocketMessage c8Event c8State).isGenerating = false ∧
    (handleRetryProject "p1" true (handleWebSocketMessage c8Event c8State)).1.failedProjectId
        = none ∧
    (handleRetryProject "p1" true (handleWebSocketMessage c8Event c8State)).1.agentStates
        = [] ∧
    (handleRetryProject "p1" true (handleWebSocketMessage c8Event c8State)).1.progressInfo
        = none ∧
    (handleRetryProject "p1" true (handleWebSocketMessage c8Event c8State)).2
        = [Command.retry_project "p1"] :=
  error_then_retry c8Event c8State "p1" rfl rfl rfl (by decide)

end MGX
